import Mathlib

/-!
Shallow embedding of `src/monitor.py` (BTCP system monitor).

Embedded here: the `Target` health state machine of
`SystemMonitor.check_target`, the five probe checkers, the notifier's
alert and status-report builders, and the run-once branch of
`SystemMonitor.start`.

Modelling conventions:
* Time is natural-number seconds; all `datetime.now()` calls performed
  inside one check step denote the same instant `now`.
* Latencies (`response_time`, floats in the source) are natural numbers;
  no verified property depends on float arithmetic.
* Network and subprocess effects are abstracted into outcome types (the
  probe completed with a return code, timed out, or raised), and each
  checker is the total function from outcomes to its returned triple.
-/

namespace BtcpMonitor

/-- The `Status` enum of the monitor; the emoji payloads of the Python enum
are presentation only and are dropped. -/
inductive Status where
  | UP
  | DOWN
  | UNKNOWN
  deriving DecidableEq

/-- Probe parameters held in `Target.config` (a Python dict whose keys are
`host`, `port`, `url`, `expected_status`, `container`, `service`). -/
structure TargetConfig where
  host : String := ""
  port : Nat := 0
  url : String := ""
  expected_status : Nat := 200
  container : String := ""
  service : String := ""
  deriving DecidableEq

/-- The `Target` dataclass with its mutable health state and defaults. -/
structure Target where
  name : String
  type : String
  status : Status := Status.UNKNOWN
  last_check : Option Nat := none
  last_status_change : Option Nat := none
  consecutive_failures : Nat := 0
  response_time : Nat := 0
  error_message : String := ""
  config : TargetConfig := {}
  deriving DecidableEq

/-- A freshly constructed target, as built by `SystemMonitor._init_targets`:
only `name` and `type` are set, all health fields keep the dataclass
defaults. -/
def initTarget (name ty : String) : Target :=
  { name := name, type := ty }

/-- Result triple `(is_up, response_time, error_msg)` returned by every
probe checker. -/
structure ProbeResult where
  ok : Bool
  response_time : Nat := 0
  error_msg : String := ""
  deriving DecidableEq

/-- Hard-coded `True` in the CONFIG dict: recovery alerts are enabled. -/
def ALERT_ON_RECOVERY : Bool := true

/-- Default value of the CONFIG failure threshold before declaring DOWN. -/
def CONSECUTIVE_FAILURES : Nat := 2

/-- Observable content of one `TelegramNotifier.send_alert` message. -/
structure AlertMsg where
  isDown : Bool
  name : String
  type : String
  statusText : String
  errorLine : Option String
  responseLine : Option Nat
  downtime : Option Nat
  deriving DecidableEq

/-- The data rendered by `TelegramNotifier.send_alert`.  The downtime line is
present when the (already updated) target has a `last_status_change` and the
alert is a recovery; it shows `now - last_status_change` seconds (the code
formats them as h/m/s via divmod). -/
def send_alert (target : Target) (is_down : Bool) (now : Nat) : AlertMsg :=
  { isDown := is_down,
    name := target.name,
    type := target.type,
    statusText := if is_down then "DOWN" else "RECOVERED",
    errorLine :=
      if target.error_message ≠ "" ∧ is_down then some target.error_message else none,
    responseLine :=
      if 0 < target.response_time ∧ ¬ is_down then some target.response_time else none,
    downtime :=
      match target.last_status_change with
      | some t0 => if ¬ is_down then some (now - t0) else none
      | none => none }

/-- State-machine tail of `SystemMonitor.check_target`: record the probe
result on the target, then debounce status transitions, emitting at most one
alert.  The alert is built from the target as already mutated by this step
(the source mutates in place and then calls `send_alert`). -/
def applyResult (threshold : Nat) (t : Target) (r : ProbeResult) (now : Nat) :
    Target × Option AlertMsg :=
  let t0 : Target :=
    { t with last_check := some now, response_time := r.response_time,
             error_message := r.error_msg }
  if r.ok then
    if t.status = Status.DOWN then
      let t1 : Target :=
        { t0 with consecutive_failures := 0, status := Status.UP,
                  last_status_change := some now }
      if ALERT_ON_RECOVERY then (t1, some (send_alert t1 false now)) else (t1, none)
    else
      ({ t0 with consecutive_failures := 0, status := Status.UP }, none)
  else
    let t1 : Target := { t0 with consecutive_failures := t.consecutive_failures + 1 }
    if threshold ≤ t1.consecutive_failures then
      if t.status ≠ Status.DOWN then
        let t2 : Target :=
          { t1 with status := Status.DOWN, last_status_change := some now }
        (t2, some (send_alert t2 true now))
      else
        (t1, none)
    else
      (t1, none)

/-- Outcome of awaiting a spawned subprocess under `asyncio.wait_for`:
it finished with a return code after some elapsed milliseconds, the wait
timed out, or the machinery raised with the given rendered message. -/
inductive ProcOutcome where
  | completes (returncode : Int) (elapsed : Nat)
  | timeout
  | raises (msg : String)
  deriving DecidableEq

/-- `SystemMonitor.check_ping`: return code 0 is success; a timeout is caught
by the dedicated `asyncio.TimeoutError` branch. -/
def check_ping : ProcOutcome → ProbeResult
  | ProcOutcome.completes rc elapsed =>
      if rc = 0 then { ok := true, response_time := elapsed }
      else { ok := false, error_msg := "Host unreachable" }
  | ProcOutcome.timeout => { ok := false, error_msg := "Ping timeout" }
  | ProcOutcome.raises msg => { ok := false, error_msg := msg }

/-- Outcome of `asyncio.open_connection` under `wait_for`. -/
inductive TcpOutcome where
  | connects (elapsed : Nat)
  | timeout
  | refused
  | raises (msg : String)
  deriving DecidableEq

/-- `SystemMonitor.check_tcp_port`. -/
def check_tcp_port (port : Nat) : TcpOutcome → ProbeResult
  | TcpOutcome.connects elapsed => { ok := true, response_time := elapsed }
  | TcpOutcome.timeout =>
      { ok := false, error_msg := "Timeout porta " ++ toString port }
  | TcpOutcome.refused =>
      { ok := false, error_msg := "Connessione rifiutata porta " ++ toString port }
  | TcpOutcome.raises msg => { ok := false, error_msg := msg }

/-- Outcome of the HTTP GET issued by `check_http`. -/
inductive HttpOutcome where
  | responds (statusCode : Nat) (elapsed : Nat)
  | timeout
  | clientError (typeName : String)
  | raises (msg : String)
  deriving DecidableEq

/-- `SystemMonitor.check_http`: a response matching `expected_status` is
success, any other code is a failure carrying the elapsed time. -/
def check_http (expected_status : Nat) : HttpOutcome → ProbeResult
  | HttpOutcome.responds code elapsed =>
      if code = expected_status then { ok := true, response_time := elapsed }
      else { ok := false, response_time := elapsed,
             error_msg := "HTTP " ++ toString code }
  | HttpOutcome.timeout => { ok := false, error_msg := "HTTP timeout" }
  | HttpOutcome.clientError typeName =>
      { ok := false, error_msg := "HTTP error: " ++ typeName }
  | HttpOutcome.raises msg => { ok := false, error_msg := msg }

/-- Python renders a bare `TimeoutError` raised by `asyncio.wait_for` as the
empty string: `str(asyncio.TimeoutError())` is `""`. -/
def timeoutErrorStr : String := ""

/-- Outcome of the `docker inspect` subprocess under `wait_for`.  `stdout` is
the captured standard output. -/
inductive DockerOutcome where
  | completes (returncode : Int) (stdout : String) (elapsed : Nat)
  | timeout
  | raises (msg : String)
  deriving DecidableEq

/-- The Python substring operator: `pat in s`. -/
def strContains (s pat : String) : Bool := decide (pat.data <:+: s.data)

/-- `SystemMonitor.check_docker`: success needs return code 0 and the literal
`true` inside the lower-cased stdout.  The function has no dedicated timeout
branch; a `wait_for` timeout lands in the generic `except Exception` branch,
whose message `str(e)` is empty for a bare `TimeoutError`. -/
def check_docker : DockerOutcome → ProbeResult
  | DockerOutcome.completes rc stdout elapsed =>
      if rc = 0 ∧ strContains stdout.toLower "true" then
        { ok := true, response_time := elapsed }
      else { ok := false, error_msg := "Container non running" }
  | DockerOutcome.timeout => { ok := false, error_msg := timeoutErrorStr }
  | DockerOutcome.raises msg => { ok := false, error_msg := msg }

/-- Outcome of the `systemctl is-active` subprocess under `wait_for`. -/
inductive SystemdOutcome where
  | completes (returncode : Int) (stdout : String) (elapsed : Nat)
  | timeout
  | raises (msg : String)
  deriving DecidableEq

/-- `SystemMonitor.check_systemd`: like `check_docker`, a timeout falls into
the generic `except Exception` branch with an empty message. -/
def check_systemd : SystemdOutcome → ProbeResult
  | SystemdOutcome.completes rc stdout elapsed =>
      if rc = 0 then { ok := true, response_time := elapsed }
      else { ok := false, error_msg := "Status: " ++ stdout.trim }
  | SystemdOutcome.timeout => { ok := false, error_msg := timeoutErrorStr }
  | SystemdOutcome.raises msg => { ok := false, error_msg := msg }

/-- One round's worth of probe environment: what outcome each kind of probe
would observe, as a function of the parameters the checkers receive. -/
structure ProbeEnv where
  pingOutcome : String → ProcOutcome
  tcpOutcome : String → Nat → TcpOutcome
  httpOutcome : String → HttpOutcome
  dockerOutcome : String → DockerOutcome
  systemdOutcome : String → SystemdOutcome

/-- Probe dispatch at the top of `SystemMonitor.check_target`: an
if/elif chain on substrings of `target.type`; when no branch matches, the
initial values `is_up = False`, `response_time = 0.0`, `error_msg = ""`
survive untouched. -/
def dispatch (env : ProbeEnv) (t : Target) : ProbeResult :=
  if strContains t.type "Ping" then
    check_ping (env.pingOutcome t.config.host)
  else if strContains t.type "TCP" then
    check_tcp_port t.config.port (env.tcpOutcome t.config.host t.config.port)
  else if strContains t.type "HTTP" then
    check_http t.config.expected_status (env.httpOutcome t.config.url)
  else if strContains t.type "Docker" then
    check_docker (env.dockerOutcome t.config.container)
  else if strContains t.type "Systemd" then
    check_systemd (env.systemdOutcome t.config.service)
  else
    { ok := false }

/-- `SystemMonitor.check_target`: dispatch the probe for this target's kind,
then run the state-machine update on its result. -/
def check_target (threshold : Nat) (env : ProbeEnv) (t : Target) (now : Nat) :
    Target × Option AlertMsg :=
  applyResult threshold t (dispatch env t) now

/-- Feeding one target a sequence of check rounds, each with its own probe
environment and instant; collects the alerts in chronological order.  This is
the per-target trace of repeated `check_target` calls across ticks. -/
def checkSeq (threshold : Nat) (t : Target) :
    List (ProbeEnv × Nat) → Target × List AlertMsg
  | [] => (t, [])
  | (env, now) :: rest =>
      let p := check_target threshold env t now
      let q := checkSeq threshold p.1 rest
      (q.1, p.2.toList ++ q.2)

/-- A probe environment in which every probe times out. -/
def timeoutEnv : ProbeEnv :=
  { pingOutcome := fun _ => ProcOutcome.timeout,
    tcpOutcome := fun _ _ => TcpOutcome.timeout,
    httpOutcome := fun _ => HttpOutcome.timeout,
    dockerOutcome := fun _ => DockerOutcome.timeout,
    systemdOutcome := fun _ => SystemdOutcome.timeout }

/-- A probe environment in which every probe succeeds instantly. -/
def okEnv : ProbeEnv :=
  { pingOutcome := fun _ => ProcOutcome.completes 0 7,
    tcpOutcome := fun _ _ => TcpOutcome.connects 7,
    httpOutcome := fun _ => HttpOutcome.responds 200 7,
    dockerOutcome := fun _ => DockerOutcome.completes 0 "true" 7,
    systemdOutcome := fun _ => SystemdOutcome.completes 0 "active" 7 }

/-- Sort key used by `send_status_report`: the Python tuple
`(x.status != Status.DOWN, x.name)` compared lexicographically, with
`False < True`. -/
def statusSortKey (t : Target) : Bool := decide (t.status ≠ Status.DOWN)

/-- The ordering relation realised by `sorted(targets, key=...)` in
`send_status_report`: lexicographic on `(status != DOWN, name)`. -/
def reportLE (x y : Target) : Prop :=
  statusSortKey x < statusSortKey y ∨
    (statusSortKey x = statusSortKey y ∧ x.name ≤ y.name)

instance : DecidableRel reportLE := fun x y => by
  unfold reportLE
  exact inferInstance

instance : IsTotal Target reportLE where
  total x y := by
    rcases lt_trichotomy (statusSortKey x) (statusSortKey y) with h | h | h
    · exact Or.inl (Or.inl h)
    · rcases le_total x.name y.name with hn | hn
      · exact Or.inl (Or.inr ⟨h, hn⟩)
      · exact Or.inr (Or.inr ⟨h.symm, hn⟩)
    · exact Or.inr (Or.inl h)

instance : IsTrans Target reportLE where
  trans x y z hxy hyz := by
    rcases hxy with h1 | ⟨h1, hn1⟩
    · rcases hyz with h2 | ⟨h2, _⟩
      · exact Or.inl (h1.trans h2)
      · exact Or.inl (h2 ▸ h1)
    · rcases hyz with h2 | ⟨h2, hn2⟩
      · exact Or.inl (h1 ▸ h2)
      · exact Or.inr ⟨h1.trans h2, hn1.trans hn2⟩

/-- Observable content of one `TelegramNotifier.send_status_report` message:
the two header counts and the listed targets in their display order. -/
structure StatusReport where
  up_count : Nat
  down_count : Nat
  entries : List Target

/-- `TelegramNotifier.send_status_report`: count UP and DOWN targets for the
header, then list all targets sorted DOWN first, names ascending inside each
key class (Python `sorted` is stable; the listed properties depend only on
the key, realised here by insertion sort on the same key). -/
def send_status_report (targets : List Target) : StatusReport :=
  { up_count := targets.countP (fun t => decide (t.status = Status.UP)),
    down_count := targets.countP (fun t => decide (t.status = Status.DOWN)),
    entries := List.insertionSort reportLE targets }

/-- `SystemMonitor.run_checks`: one tick probes every target once; the
resulting per-target alerts are collected (their relative order across
targets is not guaranteed by the source and is irrelevant here). -/
def run_checks (threshold : Nat) (env : ProbeEnv) (targets : List Target)
    (now : Nat) : List Target × List AlertMsg :=
  ((targets.map (fun t => check_target threshold env t now)).map Prod.fst,
   (targets.map (fun t => check_target threshold env t now)).filterMap Prod.snd)

/-- A call placed on the notifier during the run-once branch. -/
inductive NotifierCall where
  | alert (a : AlertMsg)
  | report (r : StatusReport)

/-- Whether a notifier call is a status report. -/
def NotifierCall.isReport : NotifierCall → Bool
  | NotifierCall.report _ => true
  | NotifierCall.alert _ => false

/-- The `RUN_ONCE` branch of `SystemMonitor.start`: one `run_checks` tick,
then a single status report only when some target is DOWN afterwards, then
return.  The second component is the full sequence of notifier calls. -/
def start_run_once (threshold : Nat) (env : ProbeEnv) (targets : List Target)
    (now : Nat) : List Target × List NotifierCall :=
  let rc := run_checks threshold env targets now
  let down_services := rc.1.filter (fun t => decide (t.status = Status.DOWN))
  (rc.1,
   rc.2.map NotifierCall.alert ++
     (if down_services.isEmpty then []
      else [NotifierCall.report (send_status_report rc.1)]))

/-- Fixture: a ping target currently DOWN since instant 3, at the threshold. -/
def downPingTarget : Target :=
  { (initTarget "a" "Server (Ping)") with
    status := Status.DOWN, consecutive_failures := 2, last_status_change := some 3 }

/-- Fixture: a ping target currently UP with one recorded failure. -/
def upPingTarget : Target :=
  { (initTarget "b" "Server (Ping)") with
    status := Status.UP, consecutive_failures := 1 }

/-- A type string matching none of the five branches of the probe dispatch
chain in `check_target`. -/
def noProbeKind (ty : String) : Bool :=
  !(strContains ty "Ping") && !(strContains ty "TCP") && !(strContains ty "HTTP") &&
    !(strContains ty "Docker") && !(strContains ty "Systemd")

example :
    (applyResult 2 (initTarget "a" "Server (Ping)") { ok := false } 5).1.status =
      Status.UNKNOWN := by decide

example :
    ((checkSeq 2 (initTarget "a" "Server (Ping)")
        [(timeoutEnv, 0), (timeoutEnv, 1), (timeoutEnv, 2), (okEnv, 3)]).2.map
      AlertMsg.isDown) = [true, false] := by decide

example :
    ((checkSeq 2 (initTarget "a" "Server (Ping)")
        [(timeoutEnv, 0), (okEnv, 1), (timeoutEnv, 2), (timeoutEnv, 3)]).2.map
      AlertMsg.isDown) = [true] := by decide

example :
    (applyResult 2 { (initTarget "a" "x") with consecutive_failures := 1 }
        { ok := false } 5).1.status = Status.DOWN := by decide

example :
    (applyResult 2
        { (initTarget "a" "x") with
          status := Status.DOWN, consecutive_failures := 2,
          last_status_change := some 3 }
        { ok := true } 5).2 =
      some { isDown := false, name := "a", type := "x", statusText := "RECOVERED",
             errorLine := none, responseLine := none, downtime := some 0 } := by decide

/-! ## Per-step lemmas about the state machine -/

lemma applyResult_ok_failures {r : ProbeResult} (threshold : Nat) (t : Target)
    (now : Nat) (h : r.ok = true) :
    (applyResult threshold t r now).1.consecutive_failures = 0 := by
  unfold applyResult
  simp only [h, if_true, ALERT_ON_RECOVERY]
  split_ifs <;> rfl

lemma applyResult_ok_status {r : ProbeResult} (threshold : Nat) (t : Target)
    (now : Nat) (h : r.ok = true) :
    (applyResult threshold t r now).1.status = Status.UP := by
  unfold applyResult
  simp only [h, if_true, ALERT_ON_RECOVERY]
  split_ifs <;> rfl

lemma applyResult_fail_failures {r : ProbeResult} (threshold : Nat) (t : Target)
    (now : Nat) (h : r.ok = false) :
    (applyResult threshold t r now).1.consecutive_failures =
      t.consecutive_failures + 1 := by
  unfold applyResult
  simp only [h, Bool.false_eq_true, if_false]
  split_ifs <;> rfl

lemma applyResult_new_down {r : ProbeResult} (threshold : Nat) (t : Target)
    (now : Nat) (hd : t.status ≠ Status.DOWN)
    (hd' : (applyResult threshold t r now).1.status = Status.DOWN) :
    r.ok = false ∧
      threshold ≤ (applyResult threshold t r now).1.consecutive_failures := by
  cases hok : r.ok with
  | true =>
      exact absurd (applyResult_ok_status threshold t now hok ▸ hd') (by simp)
  | false =>
      refine ⟨rfl, ?_⟩
      rw [applyResult_fail_failures threshold t now hok]
      by_contra hlt
      push_neg at hlt
      unfold applyResult at hd'
      simp only [hok, Bool.false_eq_true, if_false] at hd'
      rw [if_neg (by simpa using Nat.not_le.mpr hlt)] at hd'
      exact hd (by simpa using hd')

lemma applyResult_status_frame {r : ProbeResult} (threshold : Nat) (t : Target)
    (now : Nat) (h : r.ok = false)
    (hlt : ¬ threshold ≤ t.consecutive_failures + 1) :
    (applyResult threshold t r now).1.status = t.status := by
  unfold applyResult
  simp only [h, Bool.false_eq_true, if_false]
  rw [if_neg (by simpa using hlt)]

/-- Claim C3: a target's status becomes DOWN only at a failing step whose new
consecutive-failure count has reached the threshold, and a single successful
probe resets `consecutive_failures` to 0 and, when the prior status was DOWN,
flips it to UP at that same step. -/
theorem down_transition_and_success_reset (threshold : Nat) (env : ProbeEnv)
    (t : Target) (now : Nat) :
    ((dispatch env t).ok = true →
        (check_target threshold env t now).1.consecutive_failures = 0 ∧
          (t.status = Status.DOWN →
            (check_target threshold env t now).1.status = Status.UP)) ∧
      ((check_target threshold env t now).1.status = Status.DOWN →
        t.status ≠ Status.DOWN →
          (dispatch env t).ok = false ∧
            threshold ≤ (check_target threshold env t now).1.consecutive_failures) := by
  constructor
  · intro hok
    exact ⟨applyResult_ok_failures threshold t now hok,
      fun _ => applyResult_ok_status threshold t now hok⟩
  · intro hd' hd
    exact applyResult_new_down threshold t now hd hd'

/-- Witness for C3 at concrete inputs: a DOWN target recovering on a
successful probe, and an UP target hitting the threshold on a failing one. -/
theorem down_transition_and_success_reset_witness :
    ((check_target 2 okEnv downPingTarget 10).1.consecutive_failures = 0 ∧
        (check_target 2 okEnv downPingTarget 10).1.status = Status.UP) ∧
      ((dispatch timeoutEnv upPingTarget).ok = false ∧
        2 ≤ (check_target 2 timeoutEnv upPingTarget 10).1.consecutive_failures) := by
  constructor
  · have h := (down_transition_and_success_reset 2 okEnv downPingTarget 10).1 (by decide)
    exact ⟨h.1, h.2 rfl⟩
  · exact (down_transition_and_success_reset 2 timeoutEnv upPingTarget 10).2
      (by decide) (by decide)

lemma applyResult_lsc_frame (threshold : Nat) (t : Target) (r : ProbeResult)
    (now : Nat) :
    (applyResult threshold t r now).1.last_status_change ≠ t.last_status_change →
      (t.status ≠ Status.DOWN ∧
          (applyResult threshold t r now).1.status = Status.DOWN) ∨
        (t.status = Status.DOWN ∧
          (applyResult threshold t r now).1.status = Status.UP) := by
  simp only [applyResult, ALERT_ON_RECOVERY]
  split_ifs with h1 h2 h3 h4 <;> intro h <;> simp_all

/-- Claim C5: `check_target` changes `last_status_change` only on a
transition to DOWN or on a DOWN-to-UP recovery; a step that leaves the status
equal to its prior value leaves `last_status_change` untouched. -/
theorem last_status_change_frame (threshold : Nat) (env : ProbeEnv)
    (t : Target) (now : Nat) :
    ((check_target threshold env t now).1.status = t.status →
        (check_target threshold env t now).1.last_status_change =
          t.last_status_change) ∧
      ((check_target threshold env t now).1.last_status_change ≠
          t.last_status_change →
        (t.status ≠ Status.DOWN ∧
            (check_target threshold env t now).1.status = Status.DOWN) ∨
          (t.status = Status.DOWN ∧
            (check_target threshold env t now).1.status = Status.UP)) := by
  have key := applyResult_lsc_frame threshold t (dispatch env t) now
  constructor
  · intro hstat
    by_contra hne
    rcases key hne with ⟨hnd, hd⟩ | ⟨hd, hu⟩
    · exact hnd (hstat.symm.trans hd)
    · have : t.status = Status.UP := hstat.symm.trans hu
      rw [hd] at this
      exact absurd this (by decide)
  · exact key

/-- Witness for C5 at a concrete input: an UP target probed successfully
keeps both its status and its `last_status_change`. -/
theorem last_status_change_frame_witness :
    (check_target 2 okEnv upPingTarget 10).1.last_status_change =
      upPingTarget.last_status_change :=
  (last_status_change_frame 2 okEnv upPingTarget 10).1 (by decide)

lemma applyResult_down_inv (threshold : Nat) (t : Target) (r : ProbeResult)
    (now : Nat) (ih : t.status = Status.DOWN → threshold ≤ t.consecutive_failures) :
    (applyResult threshold t r now).1.status = Status.DOWN →
      threshold ≤ (applyResult threshold t r now).1.consecutive_failures := by
  intro hd
  cases hok : r.ok with
  | true =>
      rw [applyResult_ok_status threshold t now hok] at hd
      exact absurd hd (by decide)
  | false =>
      rw [applyResult_fail_failures threshold t now hok]
      by_cases hth : threshold ≤ t.consecutive_failures + 1
      · exact hth
      · have hstat := applyResult_status_frame threshold t now hok hth
        rw [hstat] at hd
        exact (ih hd).trans (Nat.le_succ _)

lemma checkSeq_down_inv (threshold : Nat) (steps : List (ProbeEnv × Nat)) :
    ∀ t : Target,
      (t.status = Status.DOWN → threshold ≤ t.consecutive_failures) →
      (checkSeq threshold t steps).1.status = Status.DOWN →
        threshold ≤ (checkSeq threshold t steps).1.consecutive_failures := by
  induction steps with
  | nil => intro t ih hd; exact ih hd
  | cons s rest IH =>
      intro t ih
      obtain ⟨env, now⟩ := s
      simp only [checkSeq]
      exact IH _ (applyResult_down_inv threshold t (dispatch env t) now ih)

/-- Claim C2: starting from the freshly initialised state, after any sequence
of check rounds a DOWN status implies the consecutive-failure count has
reached the configured threshold. -/
theorem down_status_implies_threshold_failures (threshold : Nat)
    (name ty : String) (steps : List (ProbeEnv × Nat))
    (h : (checkSeq threshold (initTarget name ty) steps).1.status = Status.DOWN) :
    threshold ≤
      (checkSeq threshold (initTarget name ty) steps).1.consecutive_failures :=
  checkSeq_down_inv threshold steps (initTarget name ty)
    (fun hd => absurd hd (by simp [initTarget])) h

/-- Witness for C2: two failing rounds at the default threshold 2 put the
target DOWN with the required failure count. -/
theorem down_status_implies_threshold_failures_witness :
    2 ≤ (checkSeq 2 (initTarget "w" "Server (Ping)")
          [(timeoutEnv, 0), (timeoutEnv, 1)]).1.consecutive_failures :=
  down_status_implies_threshold_failures 2 "w" "Server (Ping)"
    [(timeoutEnv, 0), (timeoutEnv, 1)] (by decide)

lemma applyResult_none_status (threshold : Nat) (t : Target) (r : ProbeResult)
    (now : Nat) (h : (applyResult threshold t r now).2 = none) :
    ((applyResult threshold t r now).1.status = Status.DOWN ↔
      t.status = Status.DOWN) := by
  simp only [applyResult, ALERT_ON_RECOVERY] at h ⊢
  split_ifs at h ⊢ with h1 h2 h3 <;> simp_all

lemma applyResult_some_spec (threshold : Nat) (t : Target) (r : ProbeResult)
    (now : Nat) (ev : AlertMsg)
    (h : (applyResult threshold t r now).2 = some ev) :
    (ev.isDown = true ↔ t.status ≠ Status.DOWN) ∧
      ((applyResult threshold t r now).1.status = Status.DOWN ↔
        ev.isDown = true) := by
  simp only [applyResult, ALERT_ON_RECOVERY, send_alert] at h ⊢
  split_ifs at h ⊢ with h1 h2 h3 <;> simp_all
  all_goals subst h
  all_goals rfl

lemma checkSeq_alternation (threshold : Nat) (steps : List (ProbeEnv × Nat)) :
    ∀ t : Target,
      List.Chain' (fun a b => a.isDown ≠ b.isDown) (checkSeq threshold t steps).2 ∧
        (∀ e, ((checkSeq threshold t steps).2).head? = some e →
          (e.isDown = true ↔ t.status ≠ Status.DOWN)) := by
  induction steps with
  | nil =>
      intro t
      exact ⟨List.chain'_nil, by intro e he; simp [checkSeq] at he⟩
  | cons s rest IH =>
      intro t
      obtain ⟨env, now⟩ := s
      simp only [checkSeq]
      cases ha : (check_target threshold env t now).2 with
      | none =>
          simp only [ha, Option.toList_none, List.nil_append]
          have hstat := applyResult_none_status threshold t (dispatch env t) now ha
          obtain ⟨hchain, hhead⟩ := IH (check_target threshold env t now).1
          refine ⟨hchain, fun e he => ?_⟩
          exact (hhead e he).trans (not_congr hstat)
      | some ev =>
          simp only [ha, Option.toList_some, List.singleton_append]
          obtain ⟨hev, hstat⟩ :=
            applyResult_some_spec threshold t (dispatch env t) now ev ha
          replace hstat : ((check_target threshold env t now).1.status = Status.DOWN ↔
              ev.isDown = true) := hstat
          obtain ⟨hchain, hhead⟩ := IH (check_target threshold env t now).1
          constructor
          · refine List.chain'_cons'.mpr ⟨fun b hb => ?_, hchain⟩
            have hb' := hhead b hb
            cases hevd : ev.isDown <;> cases hbd : b.isDown <;> simp_all
          · intro e he
            simp only [List.head?_cons, Option.some.injEq] at he
            exact he ▸ hev

/-- Claim C4: over any sequence of check rounds from the initial state, the
emitted alerts strictly alternate between DOWN alerts and recovery alerts:
no two adjacent alerts share their `is_down` flag. -/
theorem alerts_alternate (threshold : Nat) (name ty : String)
    (steps : List (ProbeEnv × Nat)) :
    List.Chain' (fun a b => a.isDown ≠ b.isDown)
      (checkSeq threshold (initTarget name ty) steps).2 :=
  (checkSeq_alternation threshold steps (initTarget name ty)).1

/-- Claim C1, evaluated at a concrete failing input: a target DOWN since
instant 3 recovers at instant 100; exactly one recovery alert is emitted, but
its downtime reads 0 seconds, not the elapsed 97, because `check_target`
overwrites `last_status_change` with the recovery instant before
`send_alert` reads it. -/
theorem recovery_alert_reports_zero_downtime :
    (check_target 2 okEnv downPingTarget 100).2.map AlertMsg.isDown = some false ∧
      (check_target 2 okEnv downPingTarget 100).2.map AlertMsg.downtime =
        some (some 0) ∧
      (100 : Nat) - 3 ≠ 0 := by decide

/-- Claim C6: the run-once branch performs exactly one check round over all
targets and places exactly one status-report call when some target ends the
round DOWN, and none otherwise. -/
theorem run_once_report_iff_some_down (threshold : Nat) (env : ProbeEnv)
    (targets : List Target) (now : Nat) :
    (start_run_once threshold env targets now).1 =
        targets.map (fun t => (check_target threshold env t now).1) ∧
      (start_run_once threshold env targets now).2.countP NotifierCall.isReport =
        if (start_run_once threshold env targets now).1.any
            (fun t => decide (t.status = Status.DOWN)) then 1 else 0 := by
  have halerts : ∀ l : List AlertMsg,
      (l.map NotifierCall.alert).countP NotifierCall.isReport = 0 := by
    intro l
    induction l with
    | nil => rfl
    | cons a l ih => simp [List.countP_cons, NotifierCall.isReport, ih]
  constructor
  · simp [start_run_once, run_checks, List.map_map, Function.comp_def]
  · simp only [start_run_once]
    set L := (run_checks threshold env targets now).1 with hL
    set A := (run_checks threshold env targets now).2 with hA
    by_cases h : L.any (fun t => decide (t.status = Status.DOWN)) = true
    · have hne : L.filter (fun t => decide (t.status = Status.DOWN)) ≠ [] := by
        rw [Ne, List.filter_eq_nil_iff]
        push_neg
        obtain ⟨x, hx, hpx⟩ := List.any_eq_true.mp h
        exact ⟨x, hx, by simpa using hpx⟩
      rw [List.countP_append, halerts]
      simp [h, List.isEmpty_iff, hne, NotifierCall.isReport, List.countP_cons]
    · have hnil : L.filter (fun t => decide (t.status = Status.DOWN)) = [] := by
        rw [List.filter_eq_nil_iff]
        intro a ha
        by_contra hpa
        exact h (List.any_eq_true.mpr ⟨a, ha, by simpa using hpa⟩)
      rw [List.countP_append, halerts]
      simp [h, List.isEmpty_iff, hnil]

lemma reportLE_down_closed {a b : Target} (hab : reportLE a b)
    (hb : b.status = Status.DOWN) : a.status = Status.DOWN := by
  rcases hab with h | ⟨h, _⟩
  · have hb' : statusSortKey b = false := by simp [statusSortKey, hb]
    rw [hb'] at h
    simp [Bool.lt_iff] at h
  · have hb' : statusSortKey b = false := by simp [statusSortKey, hb]
    have ha' : statusSortKey a = false := h.trans hb'
    simpa [statusSortKey, not_not] using ha'

lemma reportLE_name {a b : Target} (hab : reportLE a b)
    (hk : statusSortKey a = statusSortKey b) : a.name ≤ b.name := by
  rcases hab with h | ⟨_, hn⟩
  · rw [hk] at h
    exact absurd h (lt_irrefl _)
  · exact hn

/-- Claim C7: the status report lists the input targets in an order where
every DOWN target precedes every UP target, names ascend inside the DOWN
group and inside the UP group, and the header counts are the numbers of UP
and DOWN targets. -/
theorem status_report_spec (targets : List Target) :
    (send_status_report targets).entries.Perm targets ∧
      (send_status_report targets).entries.Pairwise (fun a b =>
        (b.status = Status.DOWN → a.status = Status.DOWN) ∧
          (a.status = Status.DOWN → b.status = Status.DOWN → a.name ≤ b.name) ∧
          (a.status = Status.UP → b.status = Status.UP → a.name ≤ b.name)) ∧
      (send_status_report targets).up_count =
        targets.countP (fun t => decide (t.status = Status.UP)) ∧
      (send_status_report targets).down_count =
        targets.countP (fun t => decide (t.status = Status.DOWN)) := by
  refine ⟨List.perm_insertionSort reportLE targets, ?_, rfl, rfl⟩
  have hs : List.Pairwise reportLE (send_status_report targets).entries :=
    List.sorted_insertionSort reportLE targets
  refine hs.imp ?_
  intro a b hab
  refine ⟨fun hb => reportLE_down_closed hab hb,
    fun ha hb => reportLE_name hab (by simp [statusSortKey, ha, hb]),
    fun ha hb => reportLE_name hab (by simp [statusSortKey, ha, hb])⟩

/-- Claim C10: UNKNOWN targets are counted in neither report header (the two
counts plus the UNKNOWN count partition the target list), and they sort after
every DOWN target, interleaved with UP targets by ascending name. -/
theorem status_report_unknown_grouping (targets : List Target) :
    (send_status_report targets).up_count + (send_status_report targets).down_count +
        targets.countP (fun t => decide (t.status = Status.UNKNOWN)) =
        targets.length ∧
      (send_status_report targets).entries.Pairwise (fun a b =>
        (b.status = Status.DOWN → a.status = Status.DOWN) ∧
          (a.status ≠ Status.DOWN → b.status ≠ Status.DOWN → a.name ≤ b.name)) := by
  constructor
  · show targets.countP (fun t => decide (t.status = Status.UP)) +
        targets.countP (fun t => decide (t.status = Status.DOWN)) +
        targets.countP (fun t => decide (t.status = Status.UNKNOWN)) = targets.length
    induction targets with
    | nil => rfl
    | cons t ts ih =>
        cases h : t.status <;> simp [List.countP_cons, h] <;> omega
  · have hs : List.Pairwise reportLE (send_status_report targets).entries :=
      List.sorted_insertionSort reportLE targets
    refine hs.imp ?_
    intro a b hab
    exact ⟨fun hb => reportLE_down_closed hab hb,
      fun ha hb => reportLE_name hab (by simp [statusSortKey, ha, hb])⟩

/-- Claim C8 counterexample: the Docker checker's timeout outcome does carry
`ok = false` but its error detail is the empty string (the timeout lands in
the generic exception handler and `str` of a bare `TimeoutError` is empty),
so it is not a non-empty detail identifying the timeout. -/
theorem docker_timeout_detail_empty :
    ¬ ((check_docker DockerOutcome.timeout).ok = false ∧
        (check_docker DockerOutcome.timeout).error_msg ≠ "") := by decide

/-- Claim C8 as amended: every probe kind converts a timeout into `ok =
false` with zero latency instead of propagating it; ping, TCP and HTTP carry
a non-empty detail naming the timeout, while Docker and Systemd carry the
empty string. -/
theorem probe_timeout_results (port expected_status : Nat) :
    check_ping ProcOutcome.timeout = { ok := false, error_msg := "Ping timeout" } ∧
      check_tcp_port port TcpOutcome.timeout =
        { ok := false, error_msg := "Timeout porta " ++ toString port } ∧
      check_http expected_status HttpOutcome.timeout =
        { ok := false, error_msg := "HTTP timeout" } ∧
      check_docker DockerOutcome.timeout = { ok := false, error_msg := "" } ∧
      check_systemd SystemdOutcome.timeout = { ok := false, error_msg := "" } :=
  ⟨rfl, rfl, rfl, rfl, rfl⟩

lemma applyResult_type (threshold : Nat) (t : Target) (r : ProbeResult)
    (now : Nat) : (applyResult threshold t r now).1.type = t.type := by
  simp only [applyResult, ALERT_ON_RECOVERY]
  split_ifs <;> rfl

lemma applyResult_err (threshold : Nat) (t : Target) (r : ProbeResult)
    (now : Nat) : (applyResult threshold t r now).1.error_message = r.error_msg := by
  simp only [applyResult, ALERT_ON_RECOVERY]
  split_ifs <;> rfl

lemma applyResult_rt (threshold : Nat) (t : Target) (r : ProbeResult)
    (now : Nat) : (applyResult threshold t r now).1.response_time = r.response_time := by
  simp only [applyResult, ALERT_ON_RECOVERY]
  split_ifs <;> rfl

lemma applyResult_fail_stay_down {r : ProbeResult} (threshold : Nat) (t : Target)
    (now : Nat) (hok : r.ok = false) (hd : t.status = Status.DOWN) :
    (applyResult threshold t r now).1.status = Status.DOWN := by
  simp only [applyResult, ALERT_ON_RECOVERY, hok, Bool.false_eq_true, if_false]
  split_ifs <;> simp_all

lemma applyResult_fail_to_down {r : ProbeResult} (threshold : Nat) (t : Target)
    (now : Nat) (hok : r.ok = false)
    (hth2 : threshold ≤ t.consecutive_failures + 1)
    (hnd : t.status ≠ Status.DOWN) :
    (applyResult threshold t r now).1.status = Status.DOWN := by
  simp only [applyResult, ALERT_ON_RECOVERY, hok, Bool.false_eq_true, if_false]
  rw [if_pos hth2, if_pos hnd]

lemma applyResult_fail_snd {r : ProbeResult} (threshold : Nat) (t : Target)
    (now : Nat) (hok : r.ok = false) :
    (applyResult threshold t r now).2 =
      if threshold ≤ t.consecutive_failures + 1 ∧ t.status ≠ Status.DOWN then
        some (send_alert (applyResult threshold t r now).1 true now)
      else none := by
  simp only [applyResult, ALERT_ON_RECOVERY, hok, Bool.false_eq_true, if_false]
  split_ifs with h1 h2 <;> simp_all

lemma dispatch_unmatched {t : Target} (env : ProbeEnv)
    (h : noProbeKind t.type = true) : dispatch env t = { ok := false } := by
  simp only [noProbeKind, Bool.and_eq_true, Bool.not_eq_true'] at h
  obtain ⟨⟨⟨⟨h1, h2⟩, h3⟩, h4⟩, h5⟩ := h
  simp [dispatch, h1, h2, h3, h4, h5]

lemma checkSeq_snoc (threshold : Nat) (steps : List (ProbeEnv × Nat))
    (s : ProbeEnv × Nat) :
    ∀ t : Target, checkSeq threshold t (steps ++ [s]) =
      ((check_target threshold s.1 (checkSeq threshold t steps).1 s.2).1,
        (checkSeq threshold t steps).2 ++
          (check_target threshold s.1 (checkSeq threshold t steps).1 s.2).2.toList) := by
  induction steps with
  | nil =>
      intro t
      obtain ⟨env, now⟩ := s
      simp [checkSeq]
  | cons p rest IH =>
      intro t
      obtain ⟨env, now⟩ := p
      simp [checkSeq, IH, List.append_assoc]

lemma checkSeq_unmatched_spec (threshold : Nat) (name ty : String)
    (hth : 1 ≤ threshold) (h : noProbeKind ty = true) :
    ∀ steps : List (ProbeEnv × Nat),
      (checkSeq threshold (initTarget name ty) steps).1.type = ty ∧
        (checkSeq threshold (initTarget name ty) steps).1.consecutive_failures =
          steps.length ∧
        (checkSeq threshold (initTarget name ty) steps).1.error_message = "" ∧
        (checkSeq threshold (initTarget name ty) steps).1.response_time = 0 ∧
        ((checkSeq threshold (initTarget name ty) steps).1.status = Status.DOWN ↔
          threshold ≤ steps.length) ∧
        (checkSeq threshold (initTarget name ty) steps).2.length =
          (if threshold ≤ steps.length then 1 else 0) ∧
        ∀ a ∈ (checkSeq threshold (initTarget name ty) steps).2, a.isDown = true := by
  intro steps
  induction steps using List.reverseRecOn with
  | nil =>
      refine ⟨rfl, rfl, rfl, rfl, ?_, ?_, ?_⟩
      · simp only [checkSeq, initTarget, List.length_nil]
        constructor
        · intro hc
          exact absurd hc (by simp)
        · intro hc
          exact absurd hc (by omega)
      · simp only [checkSeq, List.length_nil]
        rw [if_neg (by omega)]
      · intro a ha
        simp [checkSeq] at ha
  | append_singleton l s IH =>
      obtain ⟨env, now⟩ := s
      obtain ⟨hty, hcf, herr, hrt, hstat, hlen, hdown⟩ := IH
      rw [checkSeq_snoc]
      set T := (checkSeq threshold (initTarget name ty) l).1 with hT
      have hdisp : dispatch env T = { ok := false } :=
        dispatch_unmatched env (by rw [hty]; exact h)
      have hct : check_target threshold env T now =
          applyResult threshold T { ok := false } now := by
        rw [check_target, hdisp]
      rw [hct]
      refine ⟨?_, ?_, ?_, ?_, ?_, ?_, ?_⟩
      · rw [applyResult_type]
        exact hty
      · rw [applyResult_fail_failures _ _ _ rfl, hcf]
        simp
      · rw [applyResult_err]
      · rw [applyResult_rt]
      · constructor
        · intro hd
          by_cases hTd : T.status = Status.DOWN
          · have := hstat.mp hTd
            simp only [List.length_append, List.length_cons, List.length_nil]
            omega
          · have h2 := (applyResult_new_down threshold T now hTd hd).2
            rw [applyResult_fail_failures _ _ _ rfl, hcf] at h2
            simpa using h2
        · intro hle
          simp only [List.length_append, List.length_cons, List.length_nil] at hle
          by_cases hTd : T.status = Status.DOWN
          · exact applyResult_fail_stay_down threshold T now rfl hTd
          · exact applyResult_fail_to_down threshold T now rfl
              (by rw [hcf]; omega) hTd
      · rw [List.length_append, hlen, applyResult_fail_snd threshold T now rfl, hcf]
        simp only [List.length_append, List.length_cons, List.length_nil]
        by_cases h1 : threshold ≤ l.length
        · have hTd := hstat.mpr h1
          rw [if_pos h1, if_neg (by simp [hTd]), if_pos (by omega)]
          rfl
        · by_cases h2 : threshold ≤ l.length + 1
          · have hTd : T.status ≠ Status.DOWN := fun hc => h1 (hstat.mp hc)
            rw [if_neg h1, if_pos ⟨h2, hTd⟩, if_pos (by omega)]
            rfl
          · rw [if_neg h1, if_neg (by tauto), if_neg (by omega)]
            rfl
      · intro a ha
        rw [List.mem_append] at ha
        rcases ha with ha | ha
        · exact hdown a ha
        · rw [applyResult_fail_snd threshold T now rfl] at ha
          by_cases hcond : threshold ≤ T.consecutive_failures + 1 ∧
              T.status ≠ Status.DOWN
          · rw [if_pos hcond] at ha
            simp only [Option.toList_some, List.mem_singleton] at ha
            rw [ha]
            rfl
          · rw [if_neg hcond] at ha
            simp at ha

lemma checkSeq_unmatched_env_irrel (threshold : Nat) :
    ∀ (steps steps' : List (ProbeEnv × Nat)) (t : Target),
      noProbeKind t.type = true →
      steps.map Prod.snd = steps'.map Prod.snd →
      checkSeq threshold t steps = checkSeq threshold t steps' := by
  intro steps
  induction steps with
  | nil =>
      intro steps' t ht hmap
      cases steps' with
      | nil => rfl
      | cons s' rest' => simp at hmap
  | cons s rest IH =>
      intro steps' t ht hmap
      cases steps' with
      | nil => simp at hmap
      | cons s' rest' =>
          obtain ⟨env, now⟩ := s
          obtain ⟨env', now'⟩ := s'
          simp only [List.map_cons, List.cons.injEq] at hmap
          obtain ⟨hnow, hrest⟩ := hmap
          simp only [checkSeq]
          have hstep : check_target threshold env t now =
              check_target threshold env' t now' := by
            simp only [check_target, dispatch_unmatched env ht,
              dispatch_unmatched env' ht, hnow]
          rw [hstep]
          have htype : noProbeKind (check_target threshold env' t now').1.type = true := by
            rw [show (check_target threshold env' t now').1.type = t.type from
              applyResult_type threshold t (dispatch env' t) now']
            exact ht
          rw [IH rest' (check_target threshold env' t now').1 htype hrest]

/-- Claim C9: a target whose type string matches no probe branch is recorded
as failing with an empty error and zero latency on every round, no probe
outcome is ever consulted (the run depends only on the instants, not on the
probe environments), failures accumulate one per round, and the target is
DOWN with exactly one emitted alert (a DOWN alert) as soon as the number of
rounds reaches the threshold. -/
theorem unmatched_type_accumulates_failures (threshold : Nat) (name ty : String)
    (steps : List (ProbeEnv × Nat)) (hth : 1 ≤ threshold)
    (h : noProbeKind ty = true) :
    (∀ steps' : List (ProbeEnv × Nat),
        steps.map Prod.snd = steps'.map Prod.snd →
        checkSeq threshold (initTarget name ty) steps =
          checkSeq threshold (initTarget name ty) steps') ∧
      (checkSeq threshold (initTarget name ty) steps).1.consecutive_failures =
        steps.length ∧
      (checkSeq threshold (initTarget name ty) steps).1.error_message = "" ∧
      (checkSeq threshold (initTarget name ty) steps).1.response_time = 0 ∧
      ((checkSeq threshold (initTarget name ty) steps).1.status = Status.DOWN ↔
        threshold ≤ steps.length) ∧
      (checkSeq threshold (initTarget name ty) steps).2.length =
        (if threshold ≤ steps.length then 1 else 0) ∧
      ∀ a ∈ (checkSeq threshold (initTarget name ty) steps).2, a.isDown = true :=
  ⟨fun steps' hm =>
      checkSeq_unmatched_env_irrel threshold steps steps' (initTarget name ty) h hm,
    (checkSeq_unmatched_spec threshold name ty hth h steps).2⟩

/-- Witness for C9: a target of unmatched type `Custom`, three failing-free
rounds at threshold 2: three accumulated failures and a DOWN status. -/
theorem unmatched_type_accumulates_failures_witness :
    (checkSeq 2 (initTarget "n" "Custom")
        [(timeoutEnv, 3), (timeoutEnv, 4), (timeoutEnv, 5)]).1.consecutive_failures = 3 ∧
      (checkSeq 2 (initTarget "n" "Custom")
        [(timeoutEnv, 3), (timeoutEnv, 4), (timeoutEnv, 5)]).1.status = Status.DOWN := by
  have h := unmatched_type_accumulates_failures 2 "n" "Custom"
    [(timeoutEnv, 3), (timeoutEnv, 4), (timeoutEnv, 5)] (by decide) (by decide)
  exact ⟨h.2.1, h.2.2.2.2.1.mpr (by decide)⟩

end BtcpMonitor
